import Mathlib

/-!
Verification of the Coze stream-reader core of the fetshu-bot repository
(`server/services/coze_service.py`), shallowly embedded in Lean.

JSON values are modelled by the `Json` inductive below; `jsonParse` models
`json.loads` restricted to integer numerals (fractional and exponent forms
are outside the model, as are some exotic escape sequences).  Python
dictionaries coming from `json.loads` are modelled as association lists in
parse order with last-occurrence-wins lookup, matching `dict` construction.
Network I/O is modelled by an `HttpOutcome` oracle parameter: the status and
body (or transport failure) that the remote side produces for a request.
-/

/-- JSON values (numbers restricted to integers). -/
inductive Json where
  | null : Json
  | bool : Bool → Json
  | num : Int → Json
  | str : String → Json
  | arr : List Json → Json
  | obj : List (String × Json) → Json

/-! String primitives, implemented by structural recursion over the
character list so that concrete instances reduce inside the kernel. -/

/-- Python `str.strip()`: drop whitespace from both ends. -/
def listTrim (cs : List Char) : List Char :=
  ((cs.dropWhile Char.isWhitespace).reverse.dropWhile Char.isWhitespace).reverse

/-- `strip()` on a string. -/
def strTrim (s : String) : String :=
  String.mk (listTrim s.data)

/-- Emptiness test. -/
def strIsEmpty (s : String) : Bool :=
  s.data.isEmpty

/-- Substring containment (`sub in hay` for Python strings). -/
def listContainsSub (hay sub : List Char) : Bool :=
  match hay with
  | [] => sub.isEmpty
  | _ :: rest => sub.isPrefixOf hay || listContainsSub rest sub

/-- Python `str.startswith`. -/
def strStartsWith (s p : String) : Bool :=
  p.data.isPrefixOf s.data

/-- Python `str.endswith`. -/
def strEndsWith (s p : String) : Bool :=
  p.data.reverse.isPrefixOf s.data.reverse

/-- Python slicing `s[n:]` (all lines here are ASCII, so character count
and Python's code-point count coincide). -/
def strDrop (s : String) (n : Nat) : String :=
  String.mk (s.data.drop n)

/-- Python `str.split(sep)` for a one-character separator. -/
def splitLinesChars (sep : Char) (cs : List Char) : List (List Char) :=
  match cs with
  | [] => [[]]
  | c :: rest =>
    let r := splitLinesChars sep rest
    if c == sep then [] :: r
    else
      match r with
      | l :: ls => (c :: l) :: ls
      | [] => [[c]]

/-- `body.split(chr)` on strings. -/
def strSplit (s : String) (sep : Char) : List String :=
  (splitLinesChars sep s.data).map String.mk

/-- Digits to a natural number. -/
def digitsToNat (ds : List Char) : Nat :=
  ds.foldl (fun a c => a * 10 + (c.toNat - 48)) 0

/-- Python `int(str)`-style conversion as used by pydantic lax coercion:
surrounding whitespace and a sign are allowed around a digit run. -/
def pyIntCoerce (s : String) : Option Int :=
  let cs := listTrim s.data
  let signed := match cs with
    | '-' :: r => (true, r)
    | '+' :: r => (false, r)
    | _ => (false, cs)
  if signed.2.isEmpty then none
  else if signed.2.all Char.isDigit then
    some (if signed.1 then -(Int.ofNat (digitsToNat signed.2))
          else Int.ofNat (digitsToNat signed.2))
  else none



namespace Json

/-- Last-occurrence lookup in an association list, matching Python `dict`
construction where a duplicated key keeps its last value. -/
def lookupLast : List (String × Json) → String → Option Json
  | [], _ => none
  | kv :: rest, key =>
    match lookupLast rest key with
    | some r => some r
    | none => if kv.1 == key then some kv.2 else none

/-- Dictionary-style key lookup (`d[k]` / `d.get(k)`), `none` off objects. -/
def lookupKey : Json → String → Option Json
  | obj kvs, key => lookupLast kvs key
  | _, _ => none

/-- Python `x == key` for a string `key` against an arbitrary JSON value. -/
def isStrEq (j : Json) (s : String) : Bool :=
  match j with
  | str t => t == s
  | _ => false

/-- Python's `key in x` membership test.  On a dict it is key membership, on
a string it is substring containment, on a list it is element equality;
on other values it raises `TypeError`, modelled as `none`. -/
def pyContains (j : Json) (key : String) : Option Bool :=
  match j with
  | obj kvs => some (kvs.any (fun kv => kv.1 == key))
  | str s => some (listContainsSub s.data key.data)
  | arr xs => some (xs.any (fun x => isStrEq x key))
  | _ => none

/-- Python truthiness of a JSON value. -/
def pyTruthy : Json → Bool
  | null => false
  | bool b => b
  | num n => !(n == 0)
  | str s => !(s == "")
  | arr xs => !xs.isEmpty
  | obj kvs => !kvs.isEmpty

end Json

mutual

/-- Python `repr` of a decoded JSON value (string quoting approximated with
a plain single quote; Python's quote-switching rules are not modelled). -/
def pyRepr : Json → String
  | Json.null => "None"
  | Json.bool true => "True"
  | Json.bool false => "False"
  | Json.num n => toString n
  | Json.str s => "\x27" ++ s ++ "\x27"
  | Json.arr xs => "[" ++ pyReprList xs ++ "]"
  | Json.obj kvs => "\x7b" ++ pyReprPairs kvs ++ "\x7d"

/-- `repr` of list elements, comma separated. -/
def pyReprList : List Json → String
  | [] => ""
  | [j] => pyRepr j
  | j :: js => pyRepr j ++ ", " ++ pyReprList js

/-- `repr` of dict items, comma separated. -/
def pyReprPairs : List (String × Json) → String
  | [] => ""
  | [kv] => "\x27" ++ kv.1 ++ "\x27: " ++ pyRepr kv.2
  | kv :: rest => "\x27" ++ kv.1 ++ "\x27: " ++ pyRepr kv.2 ++ ", " ++ pyReprPairs rest

end

/-- Python `str()` of a decoded JSON value. -/
def pyStr (j : Json) : String :=
  match j with
  | Json.str s => s
  | _ => pyRepr j

/-- JSON whitespace skipping. -/
def skipWs : List Char → List Char
  | c :: cs =>
    if c == ' ' || c == '\t' || c == '\n' || c == '\r' then skipWs cs else c :: cs
  | [] => []

/-- Hexadecimal digit value. -/
def hexVal (c : Char) : Option Nat :=
  if '0' ≤ c && c ≤ '9' then some (c.toNat - 48)
  else if 'a' ≤ c && c ≤ 'f' then some (c.toNat - 87)
  else if 'A' ≤ c && c ≤ 'F' then some (c.toNat - 70)
  else none

/-- Parse the remainder of a JSON string literal (after the opening quote),
returning the decoded string and the input after the closing quote. -/
def parseJString (fuel : Nat) (cs : List Char) : Option (String × List Char) :=
  match fuel, cs with
  | 0, _ => none
  | _, [] => none
  | f + 1, c :: rest =>
    if c == '"' then some ("", rest)
    else if c == '\\' then
      match rest with
      | [] => none
      | e :: rest2 =>
        let dec : Option (Char × List Char) :=
          if e == '"' then some ('"', rest2)
          else if e == '\\' then some ('\\', rest2)
          else if e == '/' then some ('/', rest2)
          else if e == 'n' then some ('\n', rest2)
          else if e == 't' then some ('\t', rest2)
          else if e == 'r' then some ('\r', rest2)
          else if e == 'b' then some (Char.ofNat 8, rest2)
          else if e == 'f' then some (Char.ofNat 12, rest2)
          else if e == 'u' then
            match rest2 with
            | a :: b :: c2 :: d :: rest3 =>
              match hexVal a, hexVal b, hexVal c2, hexVal d with
              | some ha, some hb, some hc, some hd =>
                some (Char.ofNat (((ha * 16 + hb) * 16 + hc) * 16 + hd), rest3)
              | _, _, _, _ => none
            | _ => none
          else none
        match dec with
        | some (ch, rest3) =>
          (parseJString f rest3).map (fun p => (String.singleton ch ++ p.1, p.2))
        | none => none
    else (parseJString f rest).map (fun p => (String.singleton c ++ p.1, p.2))

/-- Parse a JSON integer numeral (fraction/exponent forms are outside the
model and rejected; leading zeros rejected as in JSON). -/
def parseNumber (cs : List Char) : Option (Json × List Char) :=
  let signed := match cs with
    | '-' :: r => (true, r)
    | _ => (false, cs)
  let ds := signed.2.takeWhile (fun c => c.isDigit)
  let rest := signed.2.dropWhile (fun c => c.isDigit)
  if ds.isEmpty then none
  else if ds.length > 1 && ds.headD '0' == '0' then none
  else
    let bad := match rest with
      | c :: _ => c == '.' || c == 'e' || c == 'E'
      | [] => false
    if bad then none
    else
      let n : Int := Int.ofNat (digitsToNat ds)
      some (Json.num (if signed.1 then -n else n), rest)

mutual

/-- Parse one JSON value from the input. -/
def parseVal (fuel : Nat) (cs : List Char) : Option (Json × List Char) :=
  match fuel with
  | 0 => none
  | f + 1 =>
    match skipWs cs with
    | [] => none
    | c :: rest =>
      if c == '{' then parseObjBody f rest
      else if c == '[' then parseArrBody f rest
      else if c == '"' then (parseJString f rest).map (fun p => (Json.str p.1, p.2))
      else if (c :: rest).take 4 == "true".toList then
        some (Json.bool true, (c :: rest).drop 4)
      else if (c :: rest).take 5 == "false".toList then
        some (Json.bool false, (c :: rest).drop 5)
      else if (c :: rest).take 4 == "null".toList then
        some (Json.null, (c :: rest).drop 4)
      else parseNumber (c :: rest)

/-- Parse an object body (after the opening brace). -/
def parseObjBody (fuel : Nat) (cs : List Char) : Option (Json × List Char) :=
  match fuel with
  | 0 => none
  | f + 1 =>
    match skipWs cs with
    | c :: rest =>
      if c == '}' then some (Json.obj [], rest)
      else (parseMembers f (c :: rest)).map (fun p => (Json.obj p.1, p.2))
    | [] => none

/-- Parse one or more `"key": value` members, up to the closing brace. -/
def parseMembers (fuel : Nat) (cs : List Char) :
    Option (List (String × Json) × List Char) :=
  match fuel with
  | 0 => none
  | f + 1 =>
    match skipWs cs with
    | '"' :: rest =>
      match parseJString f rest with
      | none => none
      | some (k, rest2) =>
        match skipWs rest2 with
        | ':' :: rest3 =>
          match parseVal f rest3 with
          | none => none
          | some (v, rest4) =>
            match skipWs rest4 with
            | ',' :: rest5 =>
              (parseMembers f rest5).map (fun p => ((k, v) :: p.1, p.2))
            | c :: rest5 =>
              if c == '}' then some ([(k, v)], rest5) else none
            | [] => none
        | _ => none
    | _ => none

/-- Parse an array body (after the opening bracket). -/
def parseArrBody (fuel : Nat) (cs : List Char) : Option (Json × List Char) :=
  match fuel with
  | 0 => none
  | f + 1 =>
    match skipWs cs with
    | ']' :: rest => some (Json.arr [], rest)
    | c :: rest => (parseElems f (c :: rest)).map (fun p => (Json.arr p.1, p.2))
    | [] => none

/-- Parse one or more array elements, up to the closing bracket. -/
def parseElems (fuel : Nat) (cs : List Char) : Option (List Json × List Char) :=
  match fuel with
  | 0 => none
  | f + 1 =>
    match parseVal f cs with
    | none => none
    | some (v, rest) =>
      match skipWs rest with
      | ',' :: rest2 => (parseElems f rest2).map (fun p => (v :: p.1, p.2))
      | ']' :: rest2 => some ([v], rest2)
      | _ => none

end

/-- Model of `json.loads`: parse a complete JSON document, requiring the
whole input (up to trailing whitespace) to be consumed. -/
def jsonParse (s : String) : Option Json :=
  match parseVal (s.length * 4 + 4) s.toList with
  | some (v, rest) => if (skipWs rest).isEmpty then some v else none
  | none => none

/-! ## Data models (`server/models/coze.py`) -/

/-- `CozeWorkflowEvent`: one decoded stream frame (`event` name, optional
dict `data`). -/
structure CozeWorkflowEvent where
  event : String
  data : Option Json

/-- `CozeAIResponse`: the assembled answer returned by the service. -/
structure CozeAIResponse where
  success : Bool
  content : Option String := none
  debug_url : Option String := none
  conversation_id : Option String := none
  error_message : Option String := none
deriving DecidableEq

/-- A failure `CozeAIResponse` carrying only an error message. -/
def failureResponse (msg : String) : CozeAIResponse :=
  { success := false, error_message := some msg }

/-- The service's configuration surface (`settings` fields used by
`CozeService`); a missing value is the empty string. -/
structure CozeConfig where
  accessToken : String
  workflowId : String
  appId : String

/-- Oracle for one outbound HTTP request: the status and body the remote
side answers with, or a transport-level failure. -/
inductive HttpOutcome where
  | success (status : Nat) (body : String)
  | timeout
  | exn (msg : String)

/-- Pydantic lax coercion to `int` (accepts integers and integer-valued
strings, as pydantic v2 does for an `int` field). -/
def coerceInt : Json → Option Int
  | Json.num n => some n
  | Json.str s => pyIntCoerce s
  | _ => none

/-- Pydantic validation of a `str` field (no cross-type coercion). -/
def coerceStr : Json → Option String
  | Json.str s => some s
  | _ => none

/-- Pydantic validation of the optional `detail : Optional[Dict]` field. -/
def validDetail : Option Json → Bool
  | none => true
  | some (Json.obj _) => true
  | some Json.null => true
  | some _ => false

/-- `CozeErrorResponse(**j)`: succeeds with the validated `(code, msg)`
exactly when `j` is a mapping whose `code` coerces to an integer, whose
`msg` is a string, and whose `detail` (if present) is a dict or `None`;
any other input raises, modelled as `none`. -/
def validateErrorResponse (j : Json) : Option (Int × String) :=
  match j with
  | Json.obj _ =>
    match (j.lookupKey ("code")).bind coerceInt, (j.lookupKey ("msg")).bind coerceStr with
    | some c, some m => if validDetail (j.lookupKey ("detail")) then some (c, m) else none
    | _, _ => none
  | _ => none

/-- `CozeWorkflowEvent(**j)`: requires a mapping with a string `event` and
an optional dict `data`; extra keys are ignored (pydantic default). -/
def validateWorkflowEvent (j : Json) : Option CozeWorkflowEvent :=
  match j with
  | Json.obj _ =>
    match (j.lookupKey ("event")).bind coerceStr with
    | none => none
    | some e =>
      match j.lookupKey ("data") with
      | none => some { event := e, data := none }
      | some Json.null => some { event := e, data := none }
      | some (Json.obj kvs) => some { event := e, data := some (Json.obj kvs) }
      | some _ => none
  | _ => none

/-- Pydantic validation of an `Optional[str]` field fed with a decoded JSON
value (`none` on the outside = validation error). -/
def coerceOptStrField : Option Json → Option (Option String)
  | none => some none
  | some (Json.str s) => some (some s)
  | some Json.null => some none
  | some _ => none

/-- The message built by `f"API 错误 {code}: {msg}"`. -/
def apiErrorMessage (code : Int) (msg : String) : String :=
  "API 错误 " ++ toString code ++ ": " ++ msg

/-- The catch-all failure of `_parse_stream_response` (its actual message
appends `str(e)` of the raised exception, which is not modelled). -/
def parseExnResponse : CozeAIResponse :=
  failureResponse ("解析响应失败")

/-- Python `current_event or ("unknown")`. -/
def pyOrDefault (o : Option String) (d : String) : String :=
  match o with
  | none => d
  | some s => if s == "" then d else s

/-! ## Stream decoding and assembly (`CozeService._parse_stream_response`) -/

/-- The loop-local state of `_parse_stream_response`: recorded frames,
content fragments (raw values, as Python appends them unchecked), the raw
`debug_url` / `conversation_id` values, and the sticky current event name. -/
structure ParseState where
  events : List CozeWorkflowEvent
  contentParts : List Json
  debugUrl : Option Json
  conversationId : Option Json
  currentEvent : Option String

/-- Initial loop state. -/
def initState : ParseState :=
  { events := [], contentParts := [], debugUrl := none,
    conversationId := none, currentEvent := none }

/-- Outcome of processing one line: continue, `break`, or `return`. -/
inductive LineResult where
  | cont (st : ParseState)
  | brk (st : ParseState)
  | ret (resp : CozeAIResponse)

/-- The error test `current_event == "error" or ("code" in event_data and
"msg" in event_data)`, with Python's short-circuit evaluation; `none` when
the membership test raises `TypeError`. -/
def errorCondition (currentEvent : Option String) (d : Json) : Option Bool :=
  if currentEvent == some ("error") then some true
  else
    match d.pyContains ("code") with
    | none => none
    | some false => some false
    | some true => d.pyContains ("msg")

/-- The fragment a `conversation.message.completed` frame's `content`
contributes (source lines 118-131): `content` that is a string starting
with a brace is re-parsed, and its `output` value (when present) is the
fragment; otherwise the raw string, or `str(content)` for non-strings.
Empty when the membership test raises (swallowed by the loop's generic
handler, which skips the rest of the iteration). -/
def contentFragment (content : Json) : List Json :=
  match content with
  | Json.str s =>
    if strStartsWith s ("\x7b") then
      match jsonParse s with
      | some contentJson =>
        match contentJson.pyContains ("output") with
        | some true =>
          match contentJson.lookupKey ("output") with
          | some v => [v]
          | none => []
        | some false => [Json.str s]
        | none => []
      | none => [Json.str s]
    else [Json.str (pyStr (Json.str s))]
  | other => [Json.str (pyStr other)]

/-- The content-extraction block: append the frame's fragment. -/
def handleContent (st : ParseState) (content : Json) : ParseState :=
  { st with contentParts := st.contentParts ++ contentFragment content }

/-- The metadata block for a `done` frame (source lines 132-136). -/
def handleDone (st : ParseState) (d : Json) : ParseState :=
  let st1 := match d.lookupKey ("debug_url") with
    | some v => { st with debugUrl := some v }
    | none => st
  match d.lookupKey ("conversation_id") with
  | some v => { st1 with conversationId := some v }
  | none => st1

/-- One iteration of the line loop of `_parse_stream_response`
(source lines 80-157). -/
def processLine (st : ParseState) (rawLine : String) : LineResult :=
  let line := strTrim rawLine
  if strIsEmpty line then LineResult.cont st
  else if strStartsWith line ("event: ") then
    LineResult.cont { st with currentEvent := some (strDrop line 7) }
  else if strStartsWith line ("data: ") then
    let dataStr := strDrop line 6
    if strTrim dataStr == "[DONE]" then LineResult.brk st
    else
      match jsonParse dataStr with
      | none => LineResult.cont st
      | some eventData =>
        match errorCondition st.currentEvent eventData with
        | none => LineResult.cont st
        | some true =>
          match validateErrorResponse eventData with
          | some cm => LineResult.ret (failureResponse (apiErrorMessage cm.1 cm.2))
          | none => LineResult.cont st
        | some false =>
          match eventData with
          | Json.obj kvs =>
            let ev : CozeWorkflowEvent :=
              { event := pyOrDefault st.currentEvent ("unknown"),
                data := some (Json.obj kvs) }
            let st1 := { st with events := st.events ++ [ev] }
            if st1.currentEvent == some ("conversation.message.completed") then
              match (Json.obj kvs).lookupKey ("content") with
              | some content => LineResult.cont (handleContent st1 content)
              | none => LineResult.cont st1
            else if st1.currentEvent == some ("done") then
              LineResult.cont (handleDone st1 (Json.obj kvs))
            else LineResult.cont st1
          | _ => LineResult.cont st
  else if strStartsWith line ("\x7b") && strEndsWith line ("\x7d") then
    match jsonParse line with
    | none => LineResult.cont st
    | some errorData =>
      match errorData.pyContains ("code") with
      | none => LineResult.ret parseExnResponse
      | some false => LineResult.cont st
      | some true =>
        match errorData.pyContains ("msg") with
        | none => LineResult.ret parseExnResponse
        | some false => LineResult.cont st
        | some true =>
          match validateErrorResponse errorData with
          | some cm => LineResult.ret (failureResponse (apiErrorMessage cm.1 cm.2))
          | none => LineResult.ret parseExnResponse
  else LineResult.cont st

/-- `"".join(content_parts)`: `none` models the `TypeError` raised when a
fragment is not a string. -/
def pyJoinStr : List Json → Option String
  | [] => some ("")
  | Json.str s :: rest => (pyJoinStr rest).map (fun t => s ++ t)
  | _ => none

/-- Result construction after the line loop (source lines 159-174):
join the fragments, fail when nothing at all was received, otherwise
build the successful answer (whose optional string fields must validate). -/
def finalize (st : ParseState) : CozeAIResponse :=
  match (if st.contentParts.isEmpty then some none
         else (pyJoinStr st.contentParts).map (fun s => some s)) with
  | none => parseExnResponse
  | some fullContent =>
    if (fullContent == none || fullContent == some ("")) && st.events.isEmpty then
      failureResponse ("未收到有效的 AI 响应，请检查 Coze 配置")
    else
      match coerceOptStrField st.debugUrl, coerceOptStrField st.conversationId with
      | some du, some cid =>
        { success := true, content := fullContent,
          debug_url := du, conversation_id := cid }
      | _, _ => parseExnResponse

/-- The line loop: thread the state through the lines, honouring `break`
and early `return`. -/
def processLines (st : ParseState) : List String → CozeAIResponse
  | [] => finalize st
  | l :: rest =>
    match processLine st l with
    | LineResult.cont st1 => processLines st1 rest
    | LineResult.brk st1 => finalize st1
    | LineResult.ret r => r

namespace CozeService

/-- `CozeService._parse_stream_response`, from the decoded body text. -/
def parse_stream_response (body : String) : CozeAIResponse :=
  processLines initState (strSplit body '\n')

/-- `CozeService._handle_error_response`: parse the error body as a
`CozeErrorResponse`; on any failure fall back to the raw status and text. -/
def handle_error_response (status : Nat) (body : String) : CozeAIResponse :=
  match jsonParse body with
  | some j =>
    match validateErrorResponse j with
    | some cm => failureResponse (apiErrorMessage cm.1 cm.2)
    | none => failureResponse ("HTTP (" ++ toString status ++ "): " ++ body)
  | none => failureResponse ("HTTP (" ++ toString status ++ "): " ++ body)

/-- `CozeService._create_conversation`: on a 200 response, read
`data["data"]["id"]` with `dict.get` semantics; every failure (non-200,
transport error, unparsable body, wrong shapes) yields `none`. -/
def create_conversation (outcome : HttpOutcome) : Option Json :=
  match outcome with
  | HttpOutcome.success status body =>
    if status == 200 then
      match jsonParse body with
      | some (Json.obj kvs) =>
        match Json.lookupLast kvs ("data") with
        | some (Json.obj inner) =>
          (match Json.lookupLast inner ("id") with
           | some Json.null => none
           | some v => some v
           | none => none)
        | some _ => none
        | none => none
      | some _ => none
      | none => none
    else none
  | _ => none

/-- `CozeService.chat_with_workflow`, with the two network calls replaced
by outcome oracles.  The outer `Option` is `none` exactly when the body
raises outside a handler (request-model validation of a truthy non-string
conversation id, constructed outside the `try` block). -/
def chat_with_workflow (cfg : CozeConfig) (createOutcome : HttpOutcome)
    (workflowOutcome : HttpOutcome) : Option CozeAIResponse :=
  if cfg.accessToken == "" then
    some (failureResponse ("Coze access token 未配置"))
  else if cfg.workflowId == "" || cfg.appId == "" then
    some (failureResponse ("Coze workflow_id 或 app_id 未配置"))
  else
    match create_conversation createOutcome with
    | none => some (failureResponse ("无法创建对话"))
    | some cid =>
      if !cid.pyTruthy then some (failureResponse ("无法创建对话"))
      else
        match cid with
        | Json.str _ =>
          match workflowOutcome with
          | HttpOutcome.timeout => some (failureResponse ("API 请求超时"))
          | HttpOutcome.exn e => some (failureResponse ("API 请求失败: " ++ e))
          | HttpOutcome.success status body =>
            if !(status == 200) then some (handle_error_response status body)
            else some (parse_stream_response body)
        | _ => none

/-- The line loop of `chat_stream` (source lines 357-372): yields validated
events; a validation error other than `json.JSONDecodeError` escapes the
inner handler and silently ends the generator. -/
def streamLoop : List String → List CozeWorkflowEvent
  | [] => []
  | line :: rest =>
    if strIsEmpty (strTrim line) then streamLoop rest
    else if strStartsWith line ("data: ") then
      let dataStr := strDrop line 6
      if strTrim dataStr == "[DONE]" then []
      else
        match jsonParse dataStr with
        | none => streamLoop rest
        | some d =>
          match validateWorkflowEvent d with
          | some ev => ev :: streamLoop rest
          | none => []
    else streamLoop rest

/-- `CozeService.chat_stream`: the list of events the generator yields.
Configuration gaps, non-200 statuses and transport failures all end the
generator with nothing yielded and no error value of any kind. -/
def chat_stream (cfg : CozeConfig) (outcome : HttpOutcome) :
    List CozeWorkflowEvent :=
  if cfg.accessToken == "" || cfg.workflowId == "" || cfg.appId == "" then []
  else
    match outcome with
    | HttpOutcome.timeout => []
    | HttpOutcome.exn _ => []
    | HttpOutcome.success status body =>
      if !(status == 200) then []
      else streamLoop (strSplit body '\n')

end CozeService

/-- The Data-Model invariant of an assembled answer: success implies no
error message, failure implies no text content. -/
def responseInvariant (r : CozeAIResponse) : Prop :=
  (r.success = true → r.error_message = none) ∧
  (r.success = false → r.content = none)

/-! ## Helper lemmas -/

/-- A successful last-occurrence lookup means the key is a member. -/
theorem lookupLast_any (kvs : List (String × Json)) (key : String) (v : Json)
    (h : Json.lookupLast kvs key = some v) :
    kvs.any (fun kv => kv.1 == key) = true := by
  induction kvs with
  | nil => simp [Json.lookupLast] at h
  | cons hd tl ih =>
    rw [Json.lookupLast] at h
    simp only [List.any_cons, Bool.or_eq_true]
    cases htl : Json.lookupLast tl key with
    | some r =>
      rw [htl] at h
      simp only [Option.some.injEq] at h
      subst h
      exact Or.inr (ih htl)
    | none =>
      rw [htl] at h
      by_cases hk : (hd.1 == key) = true
      · exact Or.inl hk
      · simp [hk] at h

/-- A validated error payload is a mapping that contains the `code` key. -/
theorem validate_has_code (kvs : List (String × Json)) (c : Int) (m : String)
    (h : validateErrorResponse (Json.obj kvs) = some (c, m)) :
    kvs.any (fun kv => kv.1 == "code") = true := by
  rw [validateErrorResponse] at h
  simp only [Json.lookupKey] at h
  cases hb : Json.lookupLast kvs ("code") with
  | some v => exact lookupLast_any kvs ("code") v hb
  | none => rw [hb] at h; simp at h

/-- A validated error payload is a mapping that contains the `msg` key. -/
theorem validate_has_msg (kvs : List (String × Json)) (c : Int) (m : String)
    (h : validateErrorResponse (Json.obj kvs) = some (c, m)) :
    kvs.any (fun kv => kv.1 == "msg") = true := by
  rw [validateErrorResponse] at h
  simp only [Json.lookupKey] at h
  cases hb : Json.lookupLast kvs ("msg") with
  | some v => exact lookupLast_any kvs ("msg") v hb
  | none =>
    rw [hb] at h
    cases hc : (Json.lookupLast kvs ("code")).bind coerceInt with
    | none => rw [hc] at h; simp at h
    | some ci => rw [hc] at h; simp at h

/-- The in-stream error test holds on any payload that validates as a
`CozeErrorResponse`, whatever the current event name is. -/
theorem errorCondition_of_validate (ce : Option String) (p : Json) (c : Int)
    (m : String) (h : validateErrorResponse p = some (c, m)) :
    errorCondition ce p = some true := by
  cases p with
  | obj kvs =>
    by_cases hce : (ce == some ("error")) = true
    · simp [errorCondition, hce]
    · simp [errorCondition, hce, Json.pyContains,
        validate_has_code kvs c m h, validate_has_msg kvs c m h]
  | null => simp [validateErrorResponse] at h
  | bool b => simp [validateErrorResponse] at h
  | num n => simp [validateErrorResponse] at h
  | str s => simp [validateErrorResponse] at h
  | arr xs => simp [validateErrorResponse] at h

/-! ## Claim theorems -/

/-- C4: a `data:` line whose remainder trims to `[DONE]` terminates decoding
immediately: no frame is emitted for it, every remaining line is discarded,
and the answer is assembled (`finalize`) from the state accumulated before
the marker; end of input without a marker likewise ends decoding normally
with the same finalization, without error. -/
theorem done_marker_terminates :
    (∀ (st : ParseState) (rawLine : String) (rest : List String),
        strIsEmpty (strTrim rawLine) = false →
        strStartsWith (strTrim rawLine) ("event: ") = false →
        strStartsWith (strTrim rawLine) ("data: ") = true →
        (strTrim (strDrop (strTrim rawLine) 6) == "[DONE]") = true →
        processLines st (rawLine :: rest) = finalize st) ∧
    (∀ st : ParseState, processLines st [] = finalize st) := by
  constructor
  · intro st rawLine rest h0 h1 h2 h3
    simp [processLines, processLine, h0, h1, h2, h3]
  · intro st
    rfl

/-- C4 witness: a concrete `[DONE]` line discards a pending error frame. -/
theorem done_marker_terminates_witness :
    processLines initState (["data: [DONE]", "data: \x7b\"msg\": 1\x7d"])
      = finalize initState :=
  done_marker_terminates.1 initState ("data: [DONE]")
    (["data: \x7b\"msg\": 1\x7d"]) rfl rfl rfl rfl

/-- C10: in streaming mode, a missing access token / workflow id / app id,
a non-200 status, and a transport failure (timeout or exception) all make
the generator finish with zero events yielded and no error value of any
kind; the result is the same empty list a legitimately empty 200-status
stream produces, so the caller cannot tell the cases apart. -/
theorem stream_failures_silent :
    (∀ (cfg : CozeConfig) (o : HttpOutcome),
        cfg.accessToken = "" ∨ cfg.workflowId = "" ∨ cfg.appId = "" →
        CozeService.chat_stream cfg o = []) ∧
    (∀ (cfg : CozeConfig) (status : Nat) (body : String), status ≠ 200 →
        CozeService.chat_stream cfg (HttpOutcome.success status body) = []) ∧
    (∀ (cfg : CozeConfig) (e : String),
        CozeService.chat_stream cfg (HttpOutcome.exn e) = []) ∧
    (∀ cfg : CozeConfig, CozeService.chat_stream cfg HttpOutcome.timeout = []) ∧
    (∀ cfg : CozeConfig,
        CozeService.chat_stream cfg (HttpOutcome.success 200 ("")) = []) := by
  refine ⟨?_, ?_, ?_, ?_, ?_⟩
  · intro cfg o h
    have hb : (cfg.accessToken == "" || cfg.workflowId == "" || cfg.appId == "") = true := by
      rcases h with h | h | h <;> simp [h]
    simp [CozeService.chat_stream, hb]
  · intro cfg status body h
    by_cases hb : (cfg.accessToken == "" || cfg.workflowId == "" || cfg.appId == "") = true <;>
      simp [CozeService.chat_stream, hb, h]
  · intro cfg e
    by_cases hb : (cfg.accessToken == "" || cfg.workflowId == "" || cfg.appId == "") = true <;>
      simp [CozeService.chat_stream, hb]
  · intro cfg
    by_cases hb : (cfg.accessToken == "" || cfg.workflowId == "" || cfg.appId == "") = true <;>
      simp [CozeService.chat_stream, hb]
  · intro cfg
    by_cases hb : (cfg.accessToken == "" || cfg.workflowId == "" || cfg.appId == "") = true
    · simp [CozeService.chat_stream, hb]
    · simp [CozeService.chat_stream, hb]
      rfl

/-- C10 witness: an empty token and a 500 status each yield zero events. -/
theorem stream_failures_silent_witness :
    CozeService.chat_stream ⟨"", "w", "a"⟩ HttpOutcome.timeout = [] ∧
    CozeService.chat_stream ⟨"t", "w", "a"⟩ (HttpOutcome.success 500 ("err")) = [] :=
  ⟨stream_failures_silent.1 ⟨"", "w", "a"⟩ HttpOutcome.timeout (Or.inl rfl),
   stream_failures_silent.2.1 ⟨"t", "w", "a"⟩ 500 ("err") (by decide)⟩

/-- C7: in buffered mode, an empty access token (resp. empty workflow id or
app id) yields an immediate failure naming the missing configuration, and
the result does not depend on either network outcome — no conversation
creation and no workflow request is consulted. -/
theorem config_precondition_failures :
    (∀ (cfg : CozeConfig) (co wo : HttpOutcome), cfg.accessToken = "" →
        CozeService.chat_with_workflow cfg co wo
          = some (failureResponse ("Coze access token 未配置"))) ∧
    (∀ (cfg : CozeConfig) (co wo : HttpOutcome), cfg.accessToken ≠ "" →
        cfg.workflowId = "" ∨ cfg.appId = "" →
        CozeService.chat_with_workflow cfg co wo
          = some (failureResponse ("Coze workflow_id 或 app_id 未配置"))) := by
  constructor
  · intro cfg co wo h
    simp [CozeService.chat_with_workflow, h]
  · intro cfg co wo h1 h2
    have hb2 : (cfg.workflowId == "" || cfg.appId == "") = true := by
      rcases h2 with h | h <;> simp [h]
    simp [CozeService.chat_with_workflow, h1, hb2]

/-- C7 witness: concrete empty-token and empty-workflow-id configurations
fail identically under two different pairs of network outcomes. -/
theorem config_precondition_failures_witness :
    CozeService.chat_with_workflow ⟨"", "w", "a"⟩ HttpOutcome.timeout
        (HttpOutcome.exn ("boom"))
      = some (failureResponse ("Coze access token 未配置")) ∧
    CozeService.chat_with_workflow ⟨"t", "", "a"⟩ (HttpOutcome.success 200 ("x"))
        HttpOutcome.timeout
      = some (failureResponse ("Coze workflow_id 或 app_id 未配置")) :=
  ⟨config_precondition_failures.1 ⟨"", "w", "a"⟩ HttpOutcome.timeout
      (HttpOutcome.exn ("boom")) rfl,
   config_precondition_failures.2 ⟨"t", "", "a"⟩ (HttpOutcome.success 200 ("x"))
      HttpOutcome.timeout (by decide) (Or.inl rfl)⟩

/-- C8: when conversation creation fails (returns null), the exchange fails
with the "cannot create conversation" message, and the result does not
depend on the workflow outcome — the workflow request is never consulted. -/
theorem create_failure_blocks_workflow (cfg : CozeConfig) (co wo : HttpOutcome)
    (h1 : cfg.accessToken ≠ "") (h2 : cfg.workflowId ≠ "") (h3 : cfg.appId ≠ "")
    (h4 : CozeService.create_conversation co = none) :
    CozeService.chat_with_workflow cfg co wo
      = some (failureResponse ("无法创建对话")) := by
  simp [CozeService.chat_with_workflow, h1, h2, h3, h4]

/-- C8 witness: a 500 on the creation call blocks a workflow outcome that
would otherwise have produced content. -/
theorem create_failure_blocks_workflow_witness :
    CozeService.chat_with_workflow ⟨"t", "w", "a"⟩ (HttpOutcome.success 500 (""))
        (HttpOutcome.success 200 ("data: \x7b\"content\": \"hi\"\x7d"))
      = some (failureResponse ("无法创建对话")) :=
  create_failure_blocks_workflow ⟨"t", "w", "a"⟩ (HttpOutcome.success 500 (""))
    (HttpOutcome.success 200 ("data: \x7b\"content\": \"hi\"\x7d"))
    (by decide) (by decide) (by decide) rfl

/-- Done-frame metadata extraction does not touch the recorded frames. -/
theorem handleDone_events (st : ParseState) (d : Json) :
    (handleDone st d).events = st.events := by
  unfold handleDone
  cases d.lookupKey ("debug_url") <;> cases d.lookupKey ("conversation_id") <;> simp

/-- Done-frame metadata extraction does not touch the sticky event name. -/
theorem handleDone_currentEvent (st : ParseState) (d : Json) :
    (handleDone st d).currentEvent = st.currentEvent := by
  unfold handleDone
  cases d.lookupKey ("debug_url") <;> cases d.lookupKey ("conversation_id") <;> simp

/-- C6: after the frames are exhausted with no short-circuit, an empty
state (no fragments, no frames) assembles to the "no valid response"
failure, while at least one frame with no content fragment assembles to a
successful answer with absent text carrying the recorded done-frame
metadata; concretely, a stream holding only a done frame yields
`succeeded=true, text=absent, debugLink="http://x", conversationId="c1"`. -/
theorem exhausted_assembly :
    (∀ st : ParseState, st.contentParts = [] → st.events = [] →
        finalize st = failureResponse ("未收到有效的 AI 响应，请检查 Coze 配置")) ∧
    (∀ (st : ParseState) (du cid : Option String), st.contentParts = [] →
        st.events ≠ [] →
        coerceOptStrField st.debugUrl = some du →
        coerceOptStrField st.conversationId = some cid →
        finalize st = { success := true, content := none,
                        debug_url := du, conversation_id := cid }) ∧
    CozeService.parse_stream_response
        ("event: done\ndata: \x7b\"debug_url\": \"http://x\", \"conversation_id\": \"c1\"\x7d")
      = { success := true, debug_url := some ("http://x"),
          conversation_id := some ("c1") } := by
  refine ⟨?_, ?_, rfl⟩
  · intro st h1 h2
    simp [finalize, h1, h2]
  · intro st du cid h1 h2 h3 h4
    have he : st.events.isEmpty = false := by
      cases hev : st.events with
      | nil => exact absurd hev h2
      | cons a l => simp
    simp [finalize, h1, h2, h3, h4, he]

/-- C6 witness: a state holding one done frame, no fragments, and a
recorded string debug url assembles to a successful text-less answer. -/
theorem exhausted_assembly_witness :
    finalize { events := [{ event := "done",
                            data := some (Json.obj [("debug_url", Json.str ("http://x"))]) }],
               contentParts := [], debugUrl := some (Json.str ("http://x")),
               conversationId := none, currentEvent := some ("done") }
      = { success := true, content := none, debug_url := some ("http://x"),
          conversation_id := none } :=
  exhausted_assembly.2.1 _ (some ("http://x")) none rfl (by simp) rfl rfl

/-- C5: a `conversation.message.completed` frame's `content` contributes
exactly one fragment: a string starting with a brace that parses to an
object with an `output` key contributes the `output` value; otherwise (no
parse, or no `output` key, or not a brace-opened string) the raw content
string; `handleContent` appends the fragment in arrival order, and the
spec's two-frame example concatenates with no separator to "Hello". -/
theorem completed_content_fragments :
    (∀ (s : String) (cj v : Json), strStartsWith s ("\x7b") = true →
        jsonParse s = some cj → cj.lookupKey ("output") = some v →
        contentFragment (Json.str s) = [v]) ∧
    (∀ s : String, strStartsWith s ("\x7b") = true → jsonParse s = none →
        contentFragment (Json.str s) = [Json.str s]) ∧
    (∀ (s : String) (cj : Json), strStartsWith s ("\x7b") = true →
        jsonParse s = some cj → cj.pyContains ("output") = some false →
        contentFragment (Json.str s) = [Json.str s]) ∧
    (∀ s : String, strStartsWith s ("\x7b") = false →
        contentFragment (Json.str s) = [Json.str s]) ∧
    (∀ (st : ParseState) (content : Json),
        handleContent st content
          = { st with contentParts := st.contentParts ++ contentFragment content }) ∧
    CozeService.parse_stream_response
        ("event: conversation.message.completed\ndata: \x7b\"content\": \"\x7b\\\"output\\\":\\\"Hel\\\"\x7d\"\x7d\ndata: \x7b\"content\": \"lo\"\x7d")
      = { success := true, content := some ("Hello") } := by
  refine ⟨?_, ?_, ?_, ?_, ?_, rfl⟩
  · intro s cj v h1 h2 h3
    cases cj with
    | obj kvs =>
      have hpc : Json.pyContains (Json.obj kvs) ("output") = some true := by
        simp only [Json.pyContains]
        rw [lookupLast_any kvs ("output") v h3]
      simp [contentFragment, h1, h2, hpc, h3]
    | null => simp [Json.lookupKey] at h3
    | bool b => simp [Json.lookupKey] at h3
    | num n => simp [Json.lookupKey] at h3
    | str t => simp [Json.lookupKey] at h3
    | arr xs => simp [Json.lookupKey] at h3
  · intro s h1 h2
    simp [contentFragment, h1, h2]
  · intro s cj h1 h2 h3
    simp [contentFragment, h1, h2, h3]
  · intro s h1
    simp [contentFragment, h1, pyStr]
  · intro st content
    rfl

/-- C5 witness: the spec's brace-opened content string contributes its
`output` value as the fragment. -/
theorem completed_content_fragments_witness :
    contentFragment (Json.str ("\x7b\"output\":\"Hel\"\x7d")) = [Json.str ("Hel")] :=
  completed_content_fragments.1 ("\x7b\"output\":\"Hel\"\x7d")
    (Json.obj [("output", Json.str ("Hel"))]) (Json.str ("Hel")) rfl rfl rfl

/-- C1 (amended): a `data:` frame whose payload validates as an error
response (integer-coercible `code`, string `msg`) short-circuits assembly:
the loop returns failure immediately with the message built from the code
and msg, and the remaining lines — universally quantified here — have no
effect on the result.  (Per the counterexample, payloads that merely carry
`code` and `msg` keys but fail validation do not short-circuit.) -/
theorem short_circuit_on_error_payload (st : ParseState) (rawLine : String)
    (rest : List String) (p : Json) (c : Int) (m : String)
    (h0 : strIsEmpty (strTrim rawLine) = false)
    (h1 : strStartsWith (strTrim rawLine) ("event: ") = false)
    (h2 : strStartsWith (strTrim rawLine) ("data: ") = true)
    (h3 : (strTrim (strDrop (strTrim rawLine) 6) == "[DONE]") = false)
    (h4 : jsonParse (strDrop (strTrim rawLine) 6) = some p)
    (h5 : validateErrorResponse p = some (c, m)) :
    processLines st (rawLine :: rest)
      = failureResponse (apiErrorMessage c m) := by
  have hec := errorCondition_of_validate st.currentEvent p c m h5
  simp [processLines, processLine, h0, h1, h2, h3, h4, hec, h5]

/-- C1 witness: the spec's `code=5000/msg="boom"` frame short-circuits in
front of a content frame that is never read. -/
theorem short_circuit_on_error_payload_witness :
    processLines initState
        (["data: \x7b\"code\": 5000, \"msg\": \"boom\"\x7d",
          "data: \x7b\"content\": \"later\"\x7d"])
      = failureResponse (apiErrorMessage 5000 ("boom")) :=
  short_circuit_on_error_payload initState
    ("data: \x7b\"code\": 5000, \"msg\": \"boom\"\x7d")
    (["data: \x7b\"content\": \"later\"\x7d"])
    (Json.obj [("code", Json.num 5000), ("msg", Json.str ("boom"))])
    5000 ("boom") rfl rfl rfl rfl rfl rfl

/-- C1 counterexample: a payload carrying both `code` and `msg` keys whose
`code` is not integer-coercible does not short-circuit — the frame is
skipped and a later content frame still yields a successful answer, where
the claim required an immediate failure. -/
theorem short_circuit_on_error_payload_cx :
    CozeService.parse_stream_response
        ("data: \x7b\"code\": \"abc\", \"msg\": \"boom\"\x7d\nevent: conversation.message.completed\ndata: \x7b\"content\": \"hi\"\x7d")
      = { success := true, content := some ("hi") } := rfl

/-- C3 (amended): a `data:` line before any terminator whose remainder
parses to a JSON object without both `code` and `msg` keys, while the
sticky event name is not "error", emits exactly one frame whose payload is
the parsed object and whose event name is the most recently seen `event:`
remainder ("unknown" when none), leaving the sticky name unchanged; and a
`data:` line whose remainder fails JSON parsing is skipped with the state
intact, so decoding continues over the remaining lines.  (Per the
counterexample, under the sticky name "error" such an object is dropped
rather than emitted.) -/
theorem frame_emission :
    (∀ (st : ParseState) (rawLine : String) (kvs : List (String × Json)),
        strIsEmpty (strTrim rawLine) = false →
        strStartsWith (strTrim rawLine) ("event: ") = false →
        strStartsWith (strTrim rawLine) ("data: ") = true →
        (strTrim (strDrop (strTrim rawLine) 6) == "[DONE]") = false →
        jsonParse (strDrop (strTrim rawLine) 6) = some (Json.obj kvs) →
        (st.currentEvent == some ("error")) = false →
        (kvs.any (fun kv => kv.1 == "code") && kvs.any (fun kv => kv.1 == "msg")) = false →
        ∃ st1, processLine st rawLine = LineResult.cont st1 ∧
          st1.events = st.events ++
            [{ event := pyOrDefault st.currentEvent ("unknown"),
               data := some (Json.obj kvs) }] ∧
          st1.currentEvent = st.currentEvent) ∧
    (∀ (st : ParseState) (rawLine : String) (rest : List String),
        strIsEmpty (strTrim rawLine) = false →
        strStartsWith (strTrim rawLine) ("event: ") = false →
        strStartsWith (strTrim rawLine) ("data: ") = true →
        (strTrim (strDrop (strTrim rawLine) 6) == "[DONE]") = false →
        jsonParse (strDrop (strTrim rawLine) 6) = none →
        processLine st rawLine = LineResult.cont st ∧
          processLines st (rawLine :: rest) = processLines st rest) := by
  constructor
  · intro st rawLine kvs h0 h1 h2 h3 h4 h5 h6
    have hec : errorCondition st.currentEvent (Json.obj kvs) = some false := by
      by_cases hc : kvs.any (fun kv => kv.1 == "code") = true
      · have hm : kvs.any (fun kv => kv.1 == "msg") = false := by
          cases hm' : kvs.any (fun kv => kv.1 == "msg") with
          | false => rfl
          | true => rw [hc, hm'] at h6; simp at h6
        simp [errorCondition, h5, Json.pyContains, hc, hm]
      · have hc' : kvs.any (fun kv => kv.1 == "code") = false :=
          Bool.not_eq_true _ ▸ hc
        simp [errorCondition, h5, Json.pyContains, hc']
    simp only [processLine, h0, h1, h2, h3, h4, hec, Bool.false_eq_true,
      if_false, if_true]
    by_cases hcm : (st.currentEvent == some ("conversation.message.completed")) = true
    · simp only [hcm, if_true]
      cases hk : (Json.obj kvs).lookupKey ("content") with
      | some content =>
        simp only [hk]
        exact ⟨_, rfl, rfl, rfl⟩
      | none =>
        simp only [hk]
        exact ⟨_, rfl, rfl, rfl⟩
    · by_cases hd : (st.currentEvent == some ("done")) = true
      · simp only [hcm, hd, Bool.false_eq_true, if_false, if_true]
        refine ⟨_, rfl, ?_, ?_⟩
        · rw [handleDone_events]
        · rw [handleDone_currentEvent]
      · simp only [hcm, hd, Bool.false_eq_true, if_false]
        exact ⟨_, rfl, rfl, rfl⟩
  · intro st rawLine rest h0 h1 h2 h3 h4
    constructor
    · simp [processLine, h0, h1, h2, h3, h4]
    · rw [processLines]
      simp [processLine, h0, h1, h2, h3, h4]

/-- C3 witness: a concrete object payload under no event name is emitted
as one "unknown" frame; a malformed line is skipped with the state kept. -/
theorem frame_emission_witness :
    (∃ st1, processLine initState ("data: \x7b\"a\": 1\x7d") = LineResult.cont st1 ∧
       st1.events = initState.events ++
         [{ event := pyOrDefault initState.currentEvent ("unknown"),
            data := some (Json.obj [("a", Json.num 1)]) }] ∧
       st1.currentEvent = initState.currentEvent) ∧
    processLine initState ("data: \x7bnot json") = LineResult.cont initState :=
  ⟨frame_emission.1 initState ("data: \x7b\"a\": 1\x7d") ([("a", Json.num 1)])
      rfl rfl rfl rfl rfl rfl rfl,
   (frame_emission.2 initState ("data: \x7bnot json") [] rfl rfl rfl rfl rfl).1⟩

/-- C3 counterexample: under the sticky event name "error", a well-formed
object payload without `code`/`msg` keys is dropped — the stream ends with
zero recorded frames (hence the "no valid response" failure), where the
claim required exactly one emitted frame (which would have produced a
successful empty answer). -/
theorem frame_emission_cx :
    CozeService.parse_stream_response ("event: error\ndata: \x7b\"x\": 1\x7d")
      = failureResponse ("未收到有效的 AI 响应，请检查 Coze 配置") := rfl

/-- C2 (amended): once the preconditions pass and session creation yields a
truthy string id, the exchange's result is exactly the assembly of the
workflow response body — the session-creation conversation id is used only
in the outbound request and never enters the assembled answer, whose
`conversationId` therefore comes solely from the stream's done frames. -/
theorem answer_ignores_session_id (cfg : CozeConfig) (co : HttpOutcome)
    (body : String) (cid : String)
    (h1 : cfg.accessToken ≠ "") (h2 : cfg.workflowId ≠ "") (h3 : cfg.appId ≠ "")
    (h4 : CozeService.create_conversation co = some (Json.str cid))
    (h5 : cid ≠ "") :
    CozeService.chat_with_workflow cfg co (HttpOutcome.success 200 body)
      = some (CozeService.parse_stream_response body) := by
  simp [CozeService.chat_with_workflow, h1, h2, h3, h4, Json.pyTruthy, h5]

/-- C2 witness: with a session id "c-sess", the exchange result equals the
stream assembly alone. -/
theorem answer_ignores_session_id_witness :
    CozeService.chat_with_workflow ⟨"t", "w", "a"⟩
        (HttpOutcome.success 200 ("\x7b\"data\": \x7b\"id\": \"c-sess\"\x7d\x7d"))
        (HttpOutcome.success 200 ("event: done\ndata: \x7b\"conversation_id\": \"c-done\"\x7d"))
      = some (CozeService.parse_stream_response
          ("event: done\ndata: \x7b\"conversation_id\": \"c-done\"\x7d")) :=
  answer_ignores_session_id ⟨"t", "w", "a"⟩
    (HttpOutcome.success 200 ("\x7b\"data\": \x7b\"id\": \"c-sess\"\x7d\x7d"))
    ("event: done\ndata: \x7b\"conversation_id\": \"c-done\"\x7d") ("c-sess")
    (by decide) (by decide) (by decide) rfl (by decide)

/-- C2 counterexample: session creation yields "c-sess", yet the final
answer's conversationId is the done frame's "c-done" — the done frame's
value, not the session-creation value, is what the answer carries. -/
theorem answer_ignores_session_id_cx :
    CozeService.chat_with_workflow ⟨"t", "w", "a"⟩
        (HttpOutcome.success 200 ("\x7b\"data\": \x7b\"id\": \"c-sess\"\x7d\x7d"))
        (HttpOutcome.success 200 ("event: done\ndata: \x7b\"conversation_id\": \"c-done\"\x7d"))
      = some { success := true, conversation_id := some ("c-done") } := rfl

/-- Any pure-failure response satisfies the invariant. -/
theorem failureResponse_invariant (msg : String) :
    responseInvariant (failureResponse msg) :=
  ⟨(fun h => nomatch h), (fun _ => rfl)⟩

/-- Finalization always satisfies the invariant. -/
theorem finalize_invariant (st : ParseState) : responseInvariant (finalize st) := by
  unfold finalize
  split
  · exact failureResponse_invariant _
  · split
    · exact failureResponse_invariant _
    · split
      · exact ⟨fun _ => rfl, fun h => nomatch h⟩
      · exact failureResponse_invariant _

/-- Every early `return` of the line loop satisfies the invariant. -/
theorem processLine_ret_invariant (st : ParseState) (l : String)
    (r : CozeAIResponse) (h : processLine st l = LineResult.ret r) :
    responseInvariant r := by
  simp only [processLine] at h
  repeat' split at h
  all_goals first
    | (simp only [LineResult.ret.injEq] at h; subst h;
       exact failureResponse_invariant _)
    | simp at h

/-- The whole line loop satisfies the invariant. -/
theorem processLines_invariant (lines : List String) (st : ParseState) :
    responseInvariant (processLines st lines) := by
  induction lines generalizing st with
  | nil => exact finalize_invariant st
  | cons l rest ih =>
    rw [processLines]
    cases hpl : processLine st l with
    | cont st1 => exact ih st1
    | brk st1 => exact finalize_invariant st1
    | ret r => exact processLine_ret_invariant st l r hpl

/-- The HTTP-level error handler satisfies the invariant. -/
theorem handle_error_invariant (status : Nat) (body : String) :
    responseInvariant (CozeService.handle_error_response status body) := by
  unfold CozeService.handle_error_response
  repeat' split
  all_goals exact failureResponse_invariant _

/-- C9: every assembled answer produced by stream assembly, by the
HTTP-error handler, or by the whole workflow-chat exchange satisfies the
invariant: success implies no error message, failure implies no text. -/
theorem response_invariant_all :
    (∀ body : String, responseInvariant (CozeService.parse_stream_response body)) ∧
    (∀ (status : Nat) (body : String),
        responseInvariant (CozeService.handle_error_response status body)) ∧
    (∀ (cfg : CozeConfig) (co wo : HttpOutcome) (r : CozeAIResponse),
        CozeService.chat_with_workflow cfg co wo = some r →
        responseInvariant r) := by
  refine ⟨?_, ?_, ?_⟩
  · intro body
    exact processLines_invariant _ _
  · intro status body
    exact handle_error_invariant status body
  · intro cfg co wo r h
    simp only [CozeService.chat_with_workflow] at h
    repeat' split at h
    all_goals first
      | (simp only [Option.some.injEq] at h; subst h;
         first
           | exact failureResponse_invariant _
           | exact handle_error_invariant _ _
           | exact processLines_invariant _ _)
      | simp at h

/-- C9 witness: the exchange-level invariant at a concrete failing call. -/
theorem response_invariant_all_witness :
    responseInvariant (failureResponse ("Coze access token 未配置")) :=
  response_invariant_all.2.2 ⟨"", "w", "a"⟩ HttpOutcome.timeout HttpOutcome.timeout
    (failureResponse ("Coze access token 未配置")) rfl
